import Mathlib

/-!
Shallow embedding of the `camels_datasetloader` package (CAMELS-DE dataset
accessor layer): `util.py` (root-path resolution, gauge-id validation),
`get_data.py` (module-level attribute accessors) and `models.py`
(`Station` and `CAMELS_DE` classes).

Modelling conventions:
  * A pandas `DataFrame` read from a CSV is a `DataFrame`: a list of column
    names plus rows of string cells.
  * The ambient world (environment variables, `config.ini`, the files on
    disk) is an explicit `Env` value threaded through every function that
    performs I/O in the Python source.
  * Python exceptions become `Except Err`; each `Err` constructor names the
    Python exception class it stands for.  Exact message texts are kept
    except that apostrophes in Python error messages are dropped.
  * Python truthiness of `os.getenv` results is modelled explicitly: a set
    but empty environment variable is falsy.
-/

/-- Python exceptions that the package can raise. -/
inductive Err where
  /-- `ValueError msg` -/
  | valueError (msg : String)
  /-- `KeyError` from indexing a DataFrame with a missing column. -/
  | keyError (key : String)
  /-- `FileNotFoundError` from `pd.read_csv` on a missing file. -/
  | fileNotFoundError (path : String)
  /-- `AttributeError` from accessing a missing attribute on an object. -/
  | attributeError (msg : String)
deriving Repr, DecidableEq

/-- A parsed CSV table: a pandas `DataFrame` with string cells. -/
structure DataFrame where
  columns : List String
  rows : List (List String)
deriving Repr, DecidableEq

/-- `df[c].values`: the list of cells of column `c`; `KeyError` if `c` is
not a column of `df`. -/
def DataFrame.colValues (df : DataFrame) (c : String) : Except Err (List String) :=
  match df.columns.findIdx? (fun x => x == c) with
  | some i => .ok (df.rows.map (fun r => r.getD i ""))
  | none => .error (.keyError c)

/-- `df[df[c] == v]`: the rows of `df` whose `c` cell equals `v`;
`KeyError` if `c` is not a column of `df`. -/
def DataFrame.filterEq (df : DataFrame) (c v : String) : Except Err DataFrame :=
  match df.columns.findIdx? (fun x => x == c) with
  | some i => .ok ⟨df.columns, df.rows.filter (fun r => r.getD i "" == v)⟩
  | none => .error (.keyError c)

/-- A per-station timeseries table: a CSV read with its date column as
index (`ts.indexName` is the date key, `ts.index` its values, and
`ts.columns` the remaining variable columns). -/
structure TSFrame where
  indexName : String
  index : List String
  columns : List String
  rows : List (List String)
deriving Repr, DecidableEq

/-- `ts[vars]` on a date-indexed frame: keep the date index, project the
data columns to `vars` in the requested order. -/
def TSFrame.selectCols (ts : TSFrame) (vars : List String) : TSFrame :=
  ⟨ts.indexName, ts.index, vars,
    ts.rows.map (fun r => vars.map (fun v =>
      match ts.columns.findIdx? (fun x => x == v) with
      | some i => r.getD i ""
      | none => ""))⟩

/-- The ambient world a call runs in: the `CAMELS_ROOT_PATH` environment
variable (`none` when unset), the `config.ini` entry
`[CAMELS_DE] CAMELS_ROOT_PATH` (`none` when the section or key is absent),
and the files on disk, keyed by path. -/
structure Env where
  envVar : Option String
  configEntry : Option String
  csvFiles : List (String × DataFrame)
  tsFiles : List (String × TSFrame)
deriving Repr, DecidableEq

/-- Look a CSV file up on disk. -/
def Env.lookupCsv (e : Env) (path : String) : Option DataFrame :=
  (e.csvFiles.find? (fun pr => pr.1 == path)).map Prod.snd

/-- Look a timeseries CSV file up on disk. -/
def Env.lookupTs (e : Env) (path : String) : Option TSFrame :=
  (e.tsFiles.find? (fun pr => pr.1 == path)).map Prod.snd

/-- `pd.read_csv(path)`: the parsed table, or `FileNotFoundError`. -/
def pd_read_csv (e : Env) (path : String) : Except Err DataFrame :=
  match e.lookupCsv path with
  | some df => .ok df
  | none => .error (.fileNotFoundError path)

/-- `pathlib`: `root / name`. -/
def joinPath (root name : String) : String :=
  root ++ "/" ++ name

/-- The config-file fallback inside `resolve_camels_de_root_path`
(`util.py` lines 23-31): return the `config.ini` entry when the
`CAMELS_DE` section has a `CAMELS_ROOT_PATH` key, else raise `ValueError`. -/
def config_fallback (e : Env) : Except Err String :=
  match e.configEntry with
  | some v => .ok v
  | none => .error (.valueError "CAMELS_ROOT_PATH is not set in environment variables or config.ini")

/-- `util.resolve_camels_de_root_path`: return `Path(os.getenv(CAMELS_ROOT_PATH))`
when that value is truthy (set and non-empty), else fall back to
`config.ini`. -/
def resolve_camels_de_root_path (e : Env) : Except Err String :=
  match e.envVar with
  | some env_path => if env_path == "" then config_fallback e else .ok env_path
  | none => config_fallback e

/-- `util.gauge_id_is_valid`: re-resolve the root, read the topographic
attribute CSV there, and test membership of `gauge_id` in its `gauge_id`
column. -/
def gauge_id_is_valid (e : Env) (gauge_id : String) : Except Err Bool :=
  match resolve_camels_de_root_path e with
  | .error err => .error err
  | .ok root =>
    match pd_read_csv e (joinPath root "CAMELS_DE_topographic_attributes.csv") with
    | .error err => .error err
    | .ok df =>
      match df.colValues "gauge_id" with
      | .error err => .error err
      | .ok vals => .ok (vals.contains gauge_id)

/-- Common body of the module-level attribute accessors in `get_data.py`
(all except the landcover one, whose body differs): resolve the root, read
the category CSV under it, and either return it whole (no gauge id) or
validate the gauge id and filter the `gauge_id` column. -/
def get_attributes_from_file (e : Env) (file_name : String) (gauge_id : Option String) :
    Except Err DataFrame :=
  match resolve_camels_de_root_path e with
  | .error err => .error err
  | .ok root =>
    match pd_read_csv e (joinPath root file_name) with
    | .error err => .error err
    | .ok df =>
      match gauge_id with
      | none => .ok df
      | some gid =>
        match gauge_id_is_valid e gid with
        | .error err => .error err
        | .ok true => df.filterEq "gauge_id" gid
        | .ok false => .error (.valueError (gid ++ " is not a valid CAMELS-DE gauge id."))

/-- `get_data.get_topographic_attributes`. -/
def get_topographic_attributes (e : Env) (gauge_id : Option String) : Except Err DataFrame :=
  get_attributes_from_file e "CAMELS_DE_topographic_attributes.csv" gauge_id

/-- `get_data.get_soil_attributes`. -/
def get_soil_attributes (e : Env) (gauge_id : Option String) : Except Err DataFrame :=
  get_attributes_from_file e "CAMELS_DE_soil_attributes.csv" gauge_id

/-- `get_data.get_hydrogeology_attributes`. -/
def get_hydrogeology_attributes (e : Env) (gauge_id : Option String) : Except Err DataFrame :=
  get_attributes_from_file e "CAMELS_DE_hydrogeology_attributes.csv" gauge_id

/-- `get_data.get_humaninfluence_attributes`. -/
def get_humaninfluence_attributes (e : Env) (gauge_id : Option String) : Except Err DataFrame :=
  get_attributes_from_file e "CAMELS_DE_humaninfluence_attributes.csv" gauge_id

/-- `get_data.get_climatic_attributes` (defined twice in the source with
identical bodies; the second definition wins and is identical). -/
def get_climatic_attributes (e : Env) (gauge_id : Option String) : Except Err DataFrame :=
  get_attributes_from_file e "CAMELS_DE_climatic_attributes.csv" gauge_id

/-- `get_data.get_hydrologic_attributes`. -/
def get_hydrologic_attributes (e : Env) (gauge_id : Option String) : Except Err DataFrame :=
  get_attributes_from_file e "CAMELS_DE_hydrologic_attributes.csv" gauge_id

/-- `models.CAMELS_DE`: holds the dataset root resolved once at
construction time. -/
structure CAMELS_DE where
  root : String
deriving Repr, DecidableEq

/-- A Python value bound to the stray `self` parameter of the module-level
`get_data.get_landcover_attributes` when it is called as a plain function. -/
inductive PyObj where
  | pyNone
  | pyStr (s : String)
  | pyCamels (ds : CAMELS_DE)
deriving Repr, DecidableEq

/-- Python attribute access `self.root`: succeeds only on a `CAMELS_DE`
instance, otherwise raises `AttributeError`. -/
def PyObj.root_attr : PyObj → Except Err String
  | .pyCamels ds => .ok ds.root
  | .pyStr _ => .error (.attributeError "str object has no attribute root")
  | .pyNone => .error (.attributeError "NoneType object has no attribute root")

/-- `get_data.get_landcover_attributes`: unlike its siblings this
module-level function keeps a `self` first parameter and reads the CSV
from `self.root` (the resolved `root` local is computed but unused), so it
faithfully takes a `PyObj` for `self`. -/
def get_landcover_attributes (e : Env) (self : PyObj) (gauge_id : Option String) :
    Except Err DataFrame :=
  match resolve_camels_de_root_path e with
  | .error err => .error err
  | .ok _root =>
    match self.root_attr with
    | .error err => .error err
    | .ok sroot =>
      match pd_read_csv e (joinPath sroot "CAMELS_DE_landcover_attributes.csv") with
      | .error err => .error err
      | .ok df =>
        match gauge_id with
        | none => .ok df
        | some gid =>
          match gauge_id_is_valid e gid with
          | .error err => .error err
          | .ok true => df.filterEq "gauge_id" gid
          | .ok false => .error (.valueError (gid ++ " is not a valid CAMELS-DE gauge id."))

/-- `models.Station`: carries only the gauge id accepted at construction. -/
structure Station where
  gauge_id : String
deriving Repr, DecidableEq

/-- `models.Station.__init__`: validate the gauge id, raise `ValueError`
if invalid, else store it. -/
def Station.init (e : Env) (gauge_id : String) : Except Err Station :=
  match gauge_id_is_valid e gauge_id with
  | .error err => .error err
  | .ok true => .ok ⟨gauge_id⟩
  | .ok false => .error (.valueError (gauge_id ++ " is not a valid CAMELS-DE gauge id."))

/-- `models.CAMELS_DE.__init__`: resolve the root once and store it. -/
def CAMELS_DE.init (e : Env) : Except Err CAMELS_DE :=
  match resolve_camels_de_root_path e with
  | .error err => .error err
  | .ok r => .ok ⟨r⟩

/-- `models.CAMELS_DE.get_station`. -/
def CAMELS_DE.get_station (_ds : CAMELS_DE) (e : Env) (gauge_id : String) : Except Err Station :=
  Station.init e gauge_id

/-- Common body of the `CAMELS_DE.get_*_attributes` methods in
`models.py`: read the category CSV under the root stored at construction,
then (when a gauge id is given) validate it with `gauge_id_is_valid` —
which re-resolves the root from the current world — and filter. -/
def CAMELS_DE.get_attributes_from_file (ds : CAMELS_DE) (e : Env) (file_name : String)
    (gauge_id : Option String) : Except Err DataFrame :=
  match pd_read_csv e (joinPath ds.root file_name) with
  | .error err => .error err
  | .ok df =>
    match gauge_id with
    | none => .ok df
    | some gid =>
      match gauge_id_is_valid e gid with
      | .error err => .error err
      | .ok true => df.filterEq "gauge_id" gid
      | .ok false => .error (.valueError (gid ++ " is not a valid CAMELS-DE gauge id."))

/-- `models.CAMELS_DE.get_topographic_attributes`. -/
def CAMELS_DE.get_topographic_attributes (ds : CAMELS_DE) (e : Env) (gauge_id : Option String) :
    Except Err DataFrame :=
  ds.get_attributes_from_file e "CAMELS_DE_topographic_attributes.csv" gauge_id

/-- `models.CAMELS_DE.get_soil_attributes`. -/
def CAMELS_DE.get_soil_attributes (ds : CAMELS_DE) (e : Env) (gauge_id : Option String) :
    Except Err DataFrame :=
  ds.get_attributes_from_file e "CAMELS_DE_soil_attributes.csv" gauge_id

/-- `models.CAMELS_DE.get_landcover_attributes` (the method version is
well-formed: it reads from the stored root). -/
def CAMELS_DE.get_landcover_attributes (ds : CAMELS_DE) (e : Env) (gauge_id : Option String) :
    Except Err DataFrame :=
  ds.get_attributes_from_file e "CAMELS_DE_landcover_attributes.csv" gauge_id

/-- `models.CAMELS_DE.get_hydrogeology_attributes`. -/
def CAMELS_DE.get_hydrogeology_attributes (ds : CAMELS_DE) (e : Env) (gauge_id : Option String) :
    Except Err DataFrame :=
  ds.get_attributes_from_file e "CAMELS_DE_hydrogeology_attributes.csv" gauge_id

/-- `models.CAMELS_DE.get_humaninfluence_attributes`. -/
def CAMELS_DE.get_humaninfluence_attributes (ds : CAMELS_DE) (e : Env) (gauge_id : Option String) :
    Except Err DataFrame :=
  ds.get_attributes_from_file e "CAMELS_DE_humaninfluence_attributes.csv" gauge_id

/-- `models.CAMELS_DE.get_climatic_attributes` (defined twice in the
source with identical bodies; the second definition wins). -/
def CAMELS_DE.get_climatic_attributes (ds : CAMELS_DE) (e : Env) (gauge_id : Option String) :
    Except Err DataFrame :=
  ds.get_attributes_from_file e "CAMELS_DE_climatic_attributes.csv" gauge_id

/-- `models.CAMELS_DE.get_hydrologic_attributes`. -/
def CAMELS_DE.get_hydrologic_attributes (ds : CAMELS_DE) (e : Env) (gauge_id : Option String) :
    Except Err DataFrame :=
  ds.get_attributes_from_file e "CAMELS_DE_hydrologic_attributes.csv" gauge_id

/-- Path of the per-station timeseries CSV under the dataset root (spec
section 6: one CSV per station under a timeseries subdirectory, named by
identifier). -/
def timeseries_path (root gauge_id : String) : String :=
  joinPath (joinPath root "timeseries") ("CAMELS_DE_hydromet_timeseries_" ++ gauge_id ++ ".csv")

/-- Modelled from the spec: the timeseries accessor (`get_timeseries`) is
absent from the provided source files; only `util.py`, `get_data.py` and
`models.py` are present.  Following spec sections 4.3, 7 and 8: resolve
the root, read the per-station flat file (columns indexed by a date key)
— an invalid identifier is NOT validated and simply surfaces as the
missing-file error of the read — then return the full table when no
variable list is given, the requested column subset when one is given,
and a validation error naming the first requested variable absent from
the table otherwise. -/
def get_timeseries (e : Env) (gauge_id : String) (variableList : Option (List String)) :
    Except Err TSFrame :=
  match resolve_camels_de_root_path e with
  | .error err => .error err
  | .ok root =>
    match e.lookupTs (timeseries_path root gauge_id) with
    | none => .error (.fileNotFoundError (timeseries_path root gauge_id))
    | some ts =>
      match variableList with
      | none => .ok ts
      | some vars =>
        match vars.find? (fun v => !(ts.columns.contains v)) with
        | some bad => .error (.valueError ("Variable " ++ bad ++ " is not in the timeseries data."))
        | none => .ok (ts.selectCols vars)

/-- The attribute-category names for which `models.CAMELS_DE` defines a
`get_<category>_attributes` method. -/
def camelsde_attribute_categories : List String :=
  ["topographic", "soil", "landcover", "hydrogeology", "humaninfluence",
   "climatic", "hydrologic"]

/-- The public attribute call surface of `models.CAMELS_DE`, as Python
resolves it: `getattr(ds, "get_" ++ category ++ "_attributes")` over the
method table of the class.  `none` models the `AttributeError` of a
failed method lookup. -/
def CAMELS_DE.attribute_accessor (category : String) :
    Option (CAMELS_DE → Env → Option String → Except Err DataFrame) :=
  if category = "topographic" then some CAMELS_DE.get_topographic_attributes
  else if category = "soil" then some CAMELS_DE.get_soil_attributes
  else if category = "landcover" then some CAMELS_DE.get_landcover_attributes
  else if category = "hydrogeology" then some CAMELS_DE.get_hydrogeology_attributes
  else if category = "humaninfluence" then some CAMELS_DE.get_humaninfluence_attributes
  else if category = "climatic" then some CAMELS_DE.get_climatic_attributes
  else if category = "hydrologic" then some CAMELS_DE.get_hydrologic_attributes
  else none

/-- A demonstration topographic attribute table with two stations. -/
def dfTopoDemo : DataFrame :=
  ⟨["gauge_id", "area"], [["DE110000", "100"], ["DE110010", "200"]]⟩

/-- A demonstration landcover attribute table for the same stations. -/
def dfLandDemo : DataFrame :=
  ⟨["gauge_id", "forest_frac"], [["DE110000", "0.3"], ["DE110010", "0.5"]]⟩

/-- A demonstration per-station timeseries table. -/
def tsDemo : TSFrame :=
  ⟨"date", ["2000-01-01", "2000-01-02"],
   ["precipitation", "temperature", "discharge"],
   [["1.0", "5.0", "10.0"], ["2.0", "6.0", "11.0"]]⟩

/-- A well-formed demonstration world: root `/camels` from the
environment variable, topographic and landcover CSVs and one timeseries
file on disk. -/
def envDemo : Env :=
  ⟨some "/camels", none,
   [(joinPath "/camels" "CAMELS_DE_topographic_attributes.csv", dfTopoDemo),
    (joinPath "/camels" "CAMELS_DE_landcover_attributes.csv", dfLandDemo)],
   [(timeseries_path "/camels" "DE110000", tsDemo)]⟩

/-- Topographic table at the old root, for the root-switch scenario:
knows station DE110000. -/
def dfTopoOld : DataFrame :=
  ⟨["gauge_id", "area"], [["DE110000", "100"]]⟩

/-- Topographic table at the new root, for the root-switch scenario:
knows only station DE999001. -/
def dfTopoNew : DataFrame :=
  ⟨["gauge_id", "area"], [["DE999001", "7"]]⟩

/-- World before the configuration switch: root `/old`. -/
def envBefore : Env :=
  ⟨some "/old", none,
   [(joinPath "/old" "CAMELS_DE_topographic_attributes.csv", dfTopoOld)], []⟩

/-- World after the configuration switch: the environment variable now
points at `/new`, while the files at `/old` are still on disk. -/
def envAfter : Env :=
  ⟨some "/new", none,
   [(joinPath "/old" "CAMELS_DE_topographic_attributes.csv", dfTopoOld),
    (joinPath "/new" "CAMELS_DE_topographic_attributes.csv", dfTopoNew)], []⟩

/-- C2: for every combination of environment and config-file contents,
`resolve_camels_de_root_path` returns the environment value whenever the
`CAMELS_ROOT_PATH` environment variable yields a path (is set and
non-empty), otherwise the `config.ini` `CAMELS_DE`/`CAMELS_ROOT_PATH`
entry when present, and otherwise raises the configuration `ValueError`. -/
theorem resolve_root_resolution_order (e : Env) :
    (∀ p, e.envVar = some p → p ≠ "" → resolve_camels_de_root_path e = .ok p) ∧
    ((e.envVar = none ∨ e.envVar = some "") →
      ∀ v, e.configEntry = some v → resolve_camels_de_root_path e = .ok v) ∧
    ((e.envVar = none ∨ e.envVar = some "") → e.configEntry = none →
      resolve_camels_de_root_path e =
        .error (.valueError "CAMELS_ROOT_PATH is not set in environment variables or config.ini")) := by
  unfold resolve_camels_de_root_path config_fallback
  refine ⟨?_, ?_, ?_⟩
  · intro p hp hne
    rw [hp]
    simp [hne]
  · rintro (h | h) v hv <;> rw [h] <;> simp [hv]
  · rintro (h | h) hv <;> rw [h] <;> simp [hv]

/-- C2 witness: with the environment variable set to `/data` and a config
entry `/cfg`, the resolver returns `/data`. -/
theorem resolve_root_resolution_order_witness :
    resolve_camels_de_root_path ⟨some "/data", some "/cfg", [], []⟩ = .ok "/data" :=
  (resolve_root_resolution_order ⟨some "/data", some "/cfg", [], []⟩).1 "/data" rfl (by decide)

/-- C7 counterexample: in an environment where `CAMELS_ROOT_PATH` IS set —
to the empty string — the resolver does not return the environment value:
it consults `config.ini` and the config entry decides the result. -/
theorem env_set_but_config_decides :
    resolve_camels_de_root_path ⟨some "", some "/cfg", [], []⟩ = .ok "/cfg" ∧
    resolve_camels_de_root_path ⟨some "", none, [], []⟩ =
      .error (.valueError "CAMELS_ROOT_PATH is not set in environment variables or config.ini") :=
  ⟨rfl, rfl⟩

/-- C7 amended: for every environment in which `CAMELS_ROOT_PATH` is set
to a NON-EMPTY value, the resolver returns the environment value and the
config-file entry has no effect on the result. -/
theorem env_nonempty_shadows_config (e : Env) (p : String)
    (hset : e.envVar = some p) (hne : p ≠ "") :
    resolve_camels_de_root_path e = .ok p := by
  unfold resolve_camels_de_root_path
  rw [hset]
  simp [hne]

/-- C7 amended witness: env value `/data2` wins over config entry `/other`. -/
theorem env_nonempty_shadows_config_witness :
    resolve_camels_de_root_path ⟨some "/data2", some "/other", [], []⟩ = .ok "/data2" :=
  env_nonempty_shadows_config ⟨some "/data2", some "/other", [], []⟩ "/data2" rfl (by decide)

/-- C3: whenever the root resolves and the topographic attribute CSV there
is readable, `gauge_id_is_valid` returns exactly the membership of the
candidate string in that file's `gauge_id` column — true for strings in
the column, false for all others. -/
theorem gauge_id_is_valid_iff_in_column (e : Env) (root : String) (df : DataFrame)
    (vals : List String) (gid : String)
    (hroot : resolve_camels_de_root_path e = .ok root)
    (hread : pd_read_csv e (joinPath root "CAMELS_DE_topographic_attributes.csv") = .ok df)
    (hcol : df.colValues "gauge_id" = .ok vals) :
    gauge_id_is_valid e gid = .ok (vals.contains gid) ∧
    (vals.contains gid = true ↔ gid ∈ vals) := by
  constructor
  · unfold gauge_id_is_valid
    rw [hroot]
    dsimp only
    rw [hread]
    dsimp only
    rw [hcol]
  · simp

/-- C3 witness: in the demonstration world, `DE110000` is in the column
and validates, while `DE999999` is not and does not. -/
theorem gauge_id_is_valid_iff_in_column_witness :
    gauge_id_is_valid envDemo "DE110000" = .ok (["DE110000", "DE110010"].contains "DE110000") ∧
    gauge_id_is_valid envDemo "DE999999" = .ok (["DE110000", "DE110010"].contains "DE999999") :=
  ⟨(gauge_id_is_valid_iff_in_column envDemo "/camels" dfTopoDemo
      ["DE110000", "DE110010"] "DE110000" rfl rfl rfl).1,
   (gauge_id_is_valid_iff_in_column envDemo "/camels" dfTopoDemo
      ["DE110000", "DE110010"] "DE999999" rfl rfl rfl).1⟩

/-- C1: evaluation at the failing input.  In a fully well-formed world
(root resolvable, landcover CSV on disk, gauge id valid), the module-level
`get_landcover_attributes` — whose documented signature takes only a gauge
id — binds its caller's argument to the leftover `self` parameter and
evaluates `self.root` on a string, raising `AttributeError` instead of
returning the landcover table. -/
theorem get_landcover_attributes_module_call_fails :
    get_landcover_attributes envDemo (.pyStr "DE110000") none =
      .error (.attributeError "str object has no attribute root") ∧
    gauge_id_is_valid envDemo "DE110000" = .ok true ∧
    envDemo.lookupCsv (joinPath "/camels" "CAMELS_DE_landcover_attributes.csv") =
      some dfLandDemo :=
  ⟨rfl, rfl, rfl⟩

/-- C4: evaluation at the failing input.  Supplying the invalid identifier
`DE999999` to the module-level `get_landcover_attributes` does not produce
the invalid-identifier `ValueError` the claim requires: the stray `self`
parameter absorbs the argument and `self.root` raises `AttributeError`
before the validator is ever reached. -/
theorem get_landcover_attributes_invalid_id_no_value_error :
    gauge_id_is_valid envDemo "DE999999" = .ok false ∧
    get_landcover_attributes envDemo (.pyStr "DE999999") none =
      .error (.attributeError "str object has no attribute root") :=
  ⟨rfl, rfl⟩

/-- C5 counterexample: the category `simulation_benchmark`, which the
claim places inside the accepted set, has no accessor on the public
surface of `CAMELS_DE` — Python method lookup fails (an `AttributeError`,
not a validation error). -/
theorem simulation_benchmark_has_no_accessor :
    CAMELS_DE.attribute_accessor "simulation_benchmark" = none := rfl

/-- C5 amended: the set of attribute categories accepted by the public
call surface of `CAMELS_DE` is exactly {topographic, soil, landcover,
hydrogeology, humaninfluence, climatic, hydrologic} — without
`simulation_benchmark` — and any category outside this set has no
accessor at all (a failed attribute lookup, not a validation error). -/
theorem attribute_accessor_domain (category : String) :
    (CAMELS_DE.attribute_accessor category).isSome = true ↔
      category ∈ camelsde_attribute_categories := by
  unfold CAMELS_DE.attribute_accessor camelsde_attribute_categories
  repeat' split
  all_goals simp_all

/-- C6: the spec-modelled timeseries accessor.  Whenever the root resolves
and the per-station file exists: no variable list returns the full
date-indexed table; a list of present variables returns exactly that
column subset (still date-indexed); a list containing an absent variable
raises a validation `ValueError`; and for any identifier whose per-station
file is missing — the identifier is never validated — the call surfaces
the missing-file error of the read. -/
theorem get_timeseries_contract (e : Env) (root : String) (gid : String) (ts : TSFrame)
    (hroot : resolve_camels_de_root_path e = .ok root)
    (hfile : e.lookupTs (timeseries_path root gid) = some ts) :
    get_timeseries e gid none = .ok ts ∧
    (∀ vars, (∀ v ∈ vars, ts.columns.contains v = true) →
      get_timeseries e gid (some vars) = .ok (ts.selectCols vars) ∧
      (ts.selectCols vars).columns = vars ∧
      (ts.selectCols vars).indexName = ts.indexName) ∧
    (∀ vars bad, bad ∈ vars → ts.columns.contains bad = false →
      ∃ msg, get_timeseries e gid (some vars) = .error (.valueError msg)) ∧
    (∀ gid2 vs, e.lookupTs (timeseries_path root gid2) = none →
      get_timeseries e gid2 vs = .error (.fileNotFoundError (timeseries_path root gid2))) := by
  refine ⟨?_, ?_, ?_, ?_⟩
  · unfold get_timeseries
    rw [hroot]
    dsimp only
    rw [hfile]
  · intro vars hall
    have hfind : vars.find? (fun v => !(ts.columns.contains v)) = none := by
      rw [List.find?_eq_none]
      intro v hv
      simpa using hall v hv
    refine ⟨?_, rfl, rfl⟩
    unfold get_timeseries
    rw [hroot]
    dsimp only
    rw [hfile]
    dsimp only
    rw [hfind]
  · intro vars bad hmem hnot
    have hp : (vars.find? (fun v => !(ts.columns.contains v))).isSome := by
      rw [List.find?_isSome]
      exact ⟨bad, hmem, by simpa using hnot⟩
    obtain ⟨b, hb⟩ := Option.isSome_iff_exists.mp hp
    refine ⟨"Variable " ++ b ++ " is not in the timeseries data.", ?_⟩
    unfold get_timeseries
    rw [hroot]
    dsimp only
    rw [hfile]
    dsimp only
    rw [hb]
  · intro gid2 vs hnone
    unfold get_timeseries
    rw [hroot]
    dsimp only
    rw [hnone]

/-- C6 witness: in the demonstration world, the accessor returns the full
table of `DE110000` with no variable list and the projected table for
`[precipitation, discharge]`. -/
theorem get_timeseries_contract_witness :
    get_timeseries envDemo "DE110000" none = .ok tsDemo ∧
    get_timeseries envDemo "DE110000" (some ["precipitation", "discharge"]) =
      .ok (tsDemo.selectCols ["precipitation", "discharge"]) := by
  have h := get_timeseries_contract envDemo "/camels" "DE110000" tsDemo rfl rfl
  exact ⟨h.1, (h.2.1 ["precipitation", "discharge"] (by decide)).1⟩

/-- C8: every accessor of the package is a pure function of the ambient
world and its arguments — the Python source holds no cache and no mutable
state between calls — so two calls with identical arguments against an
unchanged world (same environment, config file and on-disk contents)
return identical results. -/
theorem repeated_calls_return_identical_results (e : Env) (g : Option String)
    (gid : String) (vs : Option (List String)) (ds : CAMELS_DE) (self : PyObj) :
    resolve_camels_de_root_path e = resolve_camels_de_root_path e ∧
    gauge_id_is_valid e gid = gauge_id_is_valid e gid ∧
    get_topographic_attributes e g = get_topographic_attributes e g ∧
    get_soil_attributes e g = get_soil_attributes e g ∧
    get_landcover_attributes e self g = get_landcover_attributes e self g ∧
    get_hydrogeology_attributes e g = get_hydrogeology_attributes e g ∧
    get_humaninfluence_attributes e g = get_humaninfluence_attributes e g ∧
    get_climatic_attributes e g = get_climatic_attributes e g ∧
    get_hydrologic_attributes e g = get_hydrologic_attributes e g ∧
    get_timeseries e gid vs = get_timeseries e gid vs ∧
    ds.get_topographic_attributes e g = ds.get_topographic_attributes e g ∧
    Station.init e gid = Station.init e gid :=
  ⟨rfl, rfl, rfl, rfl, rfl, rfl, rfl, rfl, rfl, rfl, rfl, rfl⟩

/-- C9: whenever the validator answers, `Station.__init__` succeeds
exactly when the supplied gauge id is valid, raising the
invalid-identifier `ValueError` otherwise; `CAMELS_DE.get_station` is
exactly this constructor; and every `Station` the constructor produces
stores the supplied gauge id, which was valid at construction time — and
since a `Station` carries nothing but this immutable field, the invariant
is preserved by all subsequent operations. -/
theorem station_init_validates (e : Env) (gid : String) (b : Bool)
    (hv : gauge_id_is_valid e gid = .ok b) :
    (b = true → Station.init e gid = .ok ⟨gid⟩) ∧
    (b = false → Station.init e gid =
      .error (.valueError (gid ++ " is not a valid CAMELS-DE gauge id."))) ∧
    (∀ ds : CAMELS_DE, ds.get_station e gid = Station.init e gid) ∧
    (∀ s : Station, Station.init e gid = .ok s →
      s.gauge_id = gid ∧ gauge_id_is_valid e s.gauge_id = .ok true) := by
  refine ⟨?_, ?_, ?_, ?_⟩
  · intro hb
    subst hb
    unfold Station.init
    rw [hv]
  · intro hb
    subst hb
    unfold Station.init
    rw [hv]
  · intro ds
    rfl
  · intro s hs
    unfold Station.init at hs
    rw [hv] at hs
    cases b with
    | false => simp at hs
    | true =>
      have hsg : s.gauge_id = gid := by
        have : (⟨gid⟩ : Station) = s := by simpa using hs
        rw [← this]
      refine ⟨hsg, ?_⟩
      rw [hsg, hv]

/-- C9 witness: in the demonstration world the valid id `DE110000` yields
a `Station` carrying it. -/
theorem station_init_validates_witness :
    Station.init envDemo "DE110000" = .ok ⟨"DE110000"⟩ :=
  (station_init_validates envDemo "DE110000" true rfl).1 rfl

/-- C10: the `CAMELS_DE` object built before the configuration switch
stores the old root `/old`; after the switch a single method call reads
the topographic table from `/old` — whose `gauge_id` column does contain
`DE110000` — but validates the identifier against the freshly re-resolved
root `/new`, whose table does not, so the call raises the
invalid-identifier `ValueError` about a station present in the very table
it just read. -/
theorem method_validates_against_different_root :
    CAMELS_DE.init envBefore = .ok ⟨"/old"⟩ ∧
    pd_read_csv envAfter (joinPath "/old" "CAMELS_DE_topographic_attributes.csv") =
      .ok dfTopoOld ∧
    dfTopoOld.colValues "gauge_id" = .ok ["DE110000"] ∧
    gauge_id_is_valid envAfter "DE110000" = .ok false ∧
    CAMELS_DE.get_topographic_attributes ⟨"/old"⟩ envAfter (some "DE110000") =
      .error (.valueError "DE110000 is not a valid CAMELS-DE gauge id.") :=
  ⟨rfl, rfl, rfl, rfl, rfl⟩
